import Mathlib

/-!
Verification of the meeting-bot core (src/src/bots/GoogleMeetBot.ts) against its
natural-language specification.  Each section shallowly embeds the relevant
source code as executable Lean definitions and settles one claim about it.
-/

namespace MeetingBot

/-! ## Status history (GoogleMeetBot.join, src/src/bots/GoogleMeetBot.ts lines 89-137)

`join` builds `_state : BotStatus[] = ['processing']`, passes `pushState` into
`joinMeeting` (which pushes 'joined' after lobby success and 'finished' as its
last statement), then runs the upload; if `_state.includes('finished') &&
!uploadResult` it splices the first 'finished' into 'failed' in place, then
reports via `patchBotStatus`.  On any exception it pushes 'failed' unless
'finished' is already present, reports, and rethrows. -/

inductive BotStatus
  | processing
  | joined
  | finished
  | failed
deriving DecidableEq, Repr

/-- Outcomes of `joinMeeting` relevant to the pushed status milestones: it either
completes (having pushed 'joined' then 'finished'), or throws before pushing
'joined', or throws after 'joined' but before 'finished' ('finished' is the last
statement of `joinMeeting`, so it cannot throw after pushing it). -/
inductive JoinMeetingOutcome
  | ok
  | throwBeforeJoined
  | throwAfterJoined
deriving DecidableEq, Repr

/-- The `_state` list after the `joinMeeting` call (initially `['processing']`,
with `pushState` appending). -/
def stateAfterJoinMeeting : JoinMeetingOutcome → List BotStatus
  | .ok => [.processing, .joined, .finished]
  | .throwBeforeJoined => [.processing]
  | .throwAfterJoined => [.processing, .joined]

/-- `_state.splice(_state.indexOf('finished'), 1, 'failed')`: replace the first
occurrence of 'finished' by 'failed' in place (only executed under the guard
`_state.includes('finished')`). -/
def spliceFinishedToFailed : List BotStatus → List BotStatus
  | [] => []
  | s :: rest => if s = .finished then .failed :: rest else s :: spliceFinishedToFailed rest

/-- The catch block of `join` (lines 122-123): push 'failed' iff 'finished' is
not already present. -/
def catchBlockState (s : List BotStatus) : List BotStatus :=
  if s.contains .finished then s else s ++ [.failed]

/-- The external inputs that decide which path `join` takes. -/
structure JoinEnv where
  jmOutcome : JoinMeetingOutcome
  /-- `uploader.uploadRecordingToRemoteStorage()` rejects. -/
  uploadThrows : Bool
  /-- the upload result value when the upload resolves (JS truthiness). -/
  uploadResult : Bool
  /-- the first `patchBotStatus` call (line 110) rejects. -/
  patchThrows : Bool
deriving DecidableEq, Repr

/-- Whether the one sanctioned retroactive rewrite (lines 106-108) fires. -/
def joinSpliceHappened (env : JoinEnv) : Bool :=
  env.jmOutcome == .ok && !env.uploadThrows &&
    (stateAfterJoinMeeting env.jmOutcome).contains .finished && !env.uploadResult

/-- Result of a `join` run: the status list handed to the last executed
`patchBotStatus` call, and whether `join` rethrew. -/
structure JoinReport where
  reported : List BotStatus
  rethrew : Bool
deriving DecidableEq, Repr

/-- Shallow embedding of `GoogleMeetBot.join` (lines 89-137), tracking the
`_state` list through the try/catch. -/
def joinRun (env : JoinEnv) : JoinReport :=
  match env.jmOutcome with
  | .ok =>
    if env.uploadThrows then
      { reported := catchBlockState (stateAfterJoinMeeting .ok), rethrew := true }
    else
      let s1 :=
        if (stateAfterJoinMeeting .ok).contains .finished && !env.uploadResult then
          spliceFinishedToFailed (stateAfterJoinMeeting .ok)
        else stateAfterJoinMeeting .ok
      if env.patchThrows then
        { reported := catchBlockState s1, rethrew := true }
      else
        { reported := s1, rethrew := false }
  | o => { reported := catchBlockState (stateAfterJoinMeeting o), rethrew := true }

/-- C1: the reported status history always ends in 'finished' or 'failed'; on a
normal `joinMeeting` completion with a falsy upload result the previously
appended 'finished' is replaced in place by 'failed' before reporting; when
`joinMeeting` throws, 'failed' is appended (and 'finished' is never present on
those paths, so the append happens exactly when 'finished' is absent); and the
reported history always extends the pre-catch state by appends only, the splice
being the only retroactive mutation. -/
theorem C1_status_history_terminal (env : JoinEnv) :
    ((joinRun env).reported.getLast? = some .finished ∨
      (joinRun env).reported.getLast? = some .failed) ∧
    (env.jmOutcome = .ok → env.uploadThrows = false → env.uploadResult = false →
      env.patchThrows = false →
      (joinRun env).reported = spliceFinishedToFailed (stateAfterJoinMeeting .ok) ∧
      (joinRun env).reported = [.processing, .joined, .failed]) ∧
    (env.jmOutcome ≠ .ok →
      (joinRun env).reported = stateAfterJoinMeeting env.jmOutcome ++ [.failed] ∧
      (stateAfterJoinMeeting env.jmOutcome).contains .finished = false) ∧
    (env.jmOutcome = .ok → env.uploadThrows = true →
      (joinRun env).reported = [.processing, .joined, .finished]) ∧
    ((joinRun env).reported.take
        (if joinSpliceHappened env then
          spliceFinishedToFailed (stateAfterJoinMeeting env.jmOutcome)
         else stateAfterJoinMeeting env.jmOutcome).length =
      (if joinSpliceHappened env then
        spliceFinishedToFailed (stateAfterJoinMeeting env.jmOutcome)
       else stateAfterJoinMeeting env.jmOutcome)) := by
  obtain ⟨o, ut, ur, pt⟩ := env
  cases o <;> cases ut <;> cases ur <;> cases pt <;>
    exact ⟨by decide, by decide, by decide, by decide, by decide⟩

/-- Witness for C1 at a concrete run: normal join, falsy upload, no patch error. -/
theorem C1_status_history_terminal_witness :
    (joinRun ⟨.ok, false, false, false⟩).reported = [.processing, .joined, .failed] :=
  ((C1_status_history_terminal ⟨.ok, false, false, false⟩).2.1 rfl rfl rfl rfl).2

/-! ## The stop routine (`stopTheRecording`, lines 1679-1711)

`stopTheRecording` unconditionally runs `mediaRecorder.stop()`, stops every
track of the captured stream, clears `timeoutId`, conditionally clears the
participant/silence/lone-test timeouts and the page-validity/dismiss-modals
intervals, and calls `window.screenAppMeetEnd(slightlySecretId)`.  It contains
no guard flag of any kind. -/

/-- Which of the conditionally-cleared timers/intervals are set (JS truthiness
of the corresponding variables) when the stop routine runs. -/
structure RecTimers where
  inactivityParticipantDetectionTimeout : Bool
  inactivitySilenceDetectionTimeout : Bool
  loneTest : Bool
  isOnValidGoogleMeetPageInterval : Bool
  dismissModalsInterval : Bool
deriving DecidableEq, Repr

/-- Counters of the observable cleanup side effects of the recording pipeline. -/
structure RecCleanup where
  recorderStopCalls : Nat
  trackStopCalls : Nat
  timerClearCalls : Nat
  intervalClearCalls : Nat
  meetEndCalls : Nat
deriving DecidableEq, Repr

def initCleanup : RecCleanup := ⟨0, 0, 0, 0, 0⟩

/-- Shallow embedding of `stopTheRecording` (lines 1679-1711) as a transition on
the effect counters: every statement of the body executes unconditionally on
every call; there is no already-stopping guard in the source. `numTracks` is the
number of tracks of the recorded display stream. -/
def stopTheRecording (numTracks : Nat) (tm : RecTimers) (st : RecCleanup) : RecCleanup :=
  { recorderStopCalls := st.recorderStopCalls + 1
    trackStopCalls := st.trackStopCalls + numTracks
    timerClearCalls := st.timerClearCalls + 1 +
      (if tm.inactivityParticipantDetectionTimeout then 1 else 0) +
      (if tm.inactivitySilenceDetectionTimeout then 1 else 0) +
      (if tm.loneTest then 1 else 0)
    intervalClearCalls := st.intervalClearCalls +
      (if tm.isOnValidGoogleMeetPageInterval then 1 else 0) +
      (if tm.dismissModalsInterval then 1 else 0)
    meetEndCalls := st.meetEndCalls + 1 }

/-- Iterated invocations of the stop routine (one per trigger that fires). -/
def stopCalls (numTracks : Nat) (tm : RecTimers) : Nat → RecCleanup
  | 0 => initCleanup
  | k + 1 => stopTheRecording numTracks tm (stopCalls numTracks tm k)

def allTimersSet : RecTimers := ⟨true, true, true, true, true⟩

/-- C2 counterexample: two invocations of the stop routine (two triggers firing
in the same tick) are not one — the second call is not a no-op: tracks are
stopped again and the end signal is delivered a second time, because
`stopTheRecording` has no already-stopping guard. -/
theorem C2_stop_not_idempotent_counterexample :
    stopTheRecording 2 allTimersSet (stopTheRecording 2 allTimersSet initCleanup) ≠
      stopTheRecording 2 allTimersSet initCleanup ∧
    (stopCalls 2 allTimersSet 2).meetEndCalls = 2 ∧
    (stopCalls 2 allTimersSet 2).trackStopCalls = 4 ∧
    (stopCalls 2 allTimersSet 1).meetEndCalls = 1 := by
  exact ⟨by decide, by decide, by decide, by decide⟩

/-- C2 amended: the stop routine has no already-stopping guard; each of the `k`
invocations re-executes the full cleanup, so after `k` calls the recorder was
stopped `k` times, each track `k` times, the timers/intervals cleared `k` times
over, and the end signal delivered `k` times.  (Exactly-once cleanup holds in a
session only because each individual trigger disables itself before calling.) -/
theorem C2_stop_repeats_cleanup (numTracks : Nat) (tm : RecTimers) (k : Nat) :
    (stopCalls numTracks tm k).meetEndCalls = k ∧
    (stopCalls numTracks tm k).recorderStopCalls = k ∧
    (stopCalls numTracks tm k).trackStopCalls = k * numTracks ∧
    (stopCalls numTracks tm k).timerClearCalls =
      k * (1 + (if tm.inactivityParticipantDetectionTimeout then 1 else 0) +
        (if tm.inactivitySilenceDetectionTimeout then 1 else 0) +
        (if tm.loneTest then 1 else 0)) ∧
    (stopCalls numTracks tm k).intervalClearCalls =
      k * ((if tm.isOnValidGoogleMeetPageInterval then 1 else 0) +
        (if tm.dismissModalsInterval then 1 else 0)) := by
  induction k with
  | zero => refine ⟨rfl, rfl, ?_, ?_, ?_⟩ <;> simp [stopCalls, initCleanup]
  | succ k ih =>
    obtain ⟨h1, h2, h3, h4, h5⟩ := ih
    refine ⟨?_, ?_, ?_, ?_, ?_⟩ <;>
      simp only [stopCalls, stopTheRecording, h1, h2, h3, h4, h5] <;> ring

/-! ## Page-type classification (`verifyItIsOnGoogleMeetPage` and its caller,
lines 208-244)

`verifyItIsOnGoogleMeetPage` classifies the current page; the caller throws
`UnsupportedMeetingError` only for `SIGN_IN_PAGE`, merely logs for
`UNSUPPORTED_PAGE`, and does nothing for `null` (indeterminate), proceeding to
the name-entry step in the latter three cases. -/

/-- Result of `verifyItIsOnGoogleMeetPage`; `indeterminate` models the `null`
returned from its catch block. -/
inductive PageStatus
  | signInPage
  | googleMeetPage
  | unsupportedPage
  | indeterminate
deriving DecidableEq, Repr

/-- Observable facts about the current page that the classifier reads. -/
structure PageSnapshot where
  /-- `page.url()` contains 'meet.google.com'. -/
  urlIncludesMeetGoogle : Bool
  /-- `page.url()` starts with 'https://accounts.google.com/'. -/
  urlStartsWithAccounts : Bool
  /-- an `h1` with text 'Sign in' exists and is visible. -/
  signInHeadingVisible : Bool
  /-- some page interaction inside the classifier throws. -/
  verifyThrows : Bool
deriving DecidableEq, Repr

/-- `detectSignInPage` (lines 210-223): `result` starts false, becomes true on
the accounts URL; the visible 'Sign in' heading only performs `result = result
&& true`. -/
def detectSignInPage (s : PageSnapshot) : Bool :=
  let result := false
  let result := if s.urlStartsWithAccounts then true else result
  let result := if s.signInHeadingVisible then result && true else result
  result

/-- `verifyItIsOnGoogleMeetPage` (lines 208-234). -/
def verifyItIsOnGoogleMeetPage (s : PageSnapshot) : PageStatus :=
  if s.verifyThrows then .indeterminate
  else if !s.urlIncludesMeetGoogle then
    if detectSignInPage s then .signInPage else .unsupportedPage
  else .googleMeetPage

/-- What `joinMeeting` does with the classification result. -/
inductive ClassifyAction
  /-- `throw new UnsupportedMeetingError(..., status)`. -/
  | throwUnsupportedMeeting (reason : PageStatus)
  /-- control continues past classification; the flag records whether the
  unsupported-page log line was emitted first. -/
  | proceed (loggedUnsupported : Bool)
deriving DecidableEq, Repr

/-- The caller's handling of the classification result (lines 236-244): only
`SIGN_IN_PAGE` throws; `UNSUPPORTED_PAGE` logs and falls through; anything else
falls through silently. -/
def classificationAction : PageStatus → ClassifyAction
  | .signInPage => .throwUnsupportedMeeting .signInPage
  | .unsupportedPage => .proceed true
  | .googleMeetPage => .proceed false
  | .indeterminate => .proceed false

/-- C4 counterexample: a page that is neither a Meet page nor the accounts
sign-in page classifies as `UNSUPPORTED_PAGE`, yet `joinMeeting` does not raise
an unsupported-meeting error — it logs and proceeds past classification,
contradicting the claim that `UnsupportedPage` raises like `SignInPage` does. -/
theorem C4_unsupported_page_proceeds_counterexample :
    verifyItIsOnGoogleMeetPage ⟨false, false, false, false⟩ = .unsupportedPage ∧
    classificationAction .unsupportedPage = .proceed true ∧
    ∀ r, classificationAction .unsupportedPage ≠ .throwUnsupportedMeeting r := by
  refine ⟨by decide, by decide, ?_⟩
  intro r
  cases r <;> decide

/-- C4 amended: after classification only `SignInPage` raises the
unsupported-meeting error (and only with the sign-in reason — no other status
raises anything); `UnsupportedPage` is logged and `joinMeeting` proceeds;
`MeetingPage` proceeds; an indeterminate classification (`null`) is logged
inside the classifier and then proceeds exactly as `MeetingPage` does, without
even the unsupported-page log line. -/
theorem C4_classification_behaviour (st : PageStatus) (s : PageSnapshot) :
    (classificationAction st = .throwUnsupportedMeeting .signInPage ↔ st = .signInPage) ∧
    (∀ r, classificationAction st = .throwUnsupportedMeeting r →
      st = .signInPage ∧ r = .signInPage) ∧
    classificationAction .unsupportedPage = .proceed true ∧
    classificationAction .googleMeetPage = .proceed false ∧
    classificationAction .indeterminate = .proceed false ∧
    (verifyItIsOnGoogleMeetPage s = .signInPage ↔
      s.verifyThrows = false ∧ s.urlIncludesMeetGoogle = false ∧
        s.urlStartsWithAccounts = true) ∧
    (verifyItIsOnGoogleMeetPage s = .indeterminate ↔ s.verifyThrows = true) := by
  obtain ⟨u1, u2, u3, u4⟩ := s
  cases st <;> cases u1 <;> cases u2 <;> cases u3 <;> cases u4 <;>
    exact ⟨by decide, by intro r; cases r <;> decide, by decide, by decide, by decide,
      by decide, by decide⟩

/-- Witness for C4's amended theorem at a concrete page status and snapshot:
the sign-in page is the status that throws, the throw implication is discharged
at that concrete throw, and a Meet page proceeds. -/
theorem C4_classification_behaviour_witness :
    classificationAction .signInPage = .throwUnsupportedMeeting .signInPage ∧
    (PageStatus.signInPage = .signInPage ∧ PageStatus.signInPage = .signInPage) ∧
    classificationAction .googleMeetPage = .proceed false ∧
    classificationAction .indeterminate = .proceed false ∧
    verifyItIsOnGoogleMeetPage ⟨false, true, true, false⟩ = .signInPage := by
  have h := C4_classification_behaviour .signInPage ⟨false, true, true, false⟩
  exact ⟨h.1.mpr rfl, h.2.1 .signInPage (h.1.mpr rfl), h.2.2.2.1, h.2.2.2.2.1,
    h.2.2.2.2.2.1.mpr ⟨rfl, rfl, rfl⟩⟩

/-! ## Presence monitor (`detectLoneParticipantResilient`, lines 1713-1814)

A 5s-cadence timer: each tick first checks `loneTestDetectionActive`; if
inactive it clears the timer and returns without evaluating anything.  Otherwise
it calls `getContributorsCount()`: on `undefined` it increments
`detectionFailures` and, at 10 consecutive failures, sets the active flag false
(no termination request); on a successful count it resets `detectionFailures`
to 0 and, if the count is below 2, deactivates and calls `stopTheRecording`. -/

/-- One participant-count read: a successful integer extraction, `undefined`
(all selector strategies failed), or a thrown extraction error (the `catch`
branch of the tick). -/
inductive Reading
  | unknown
  | count (n : Nat)
  | errorThrown
deriving DecidableEq, Repr

structure LoneState where
  detectionFailures : Nat
  /-- `loneTestDetectionActive`. -/
  active : Bool
  /-- `stopTheRecording()` was invoked by this monitor. -/
  stopRequested : Bool
deriving DecidableEq, Repr

def maxDetectionFailures : Nat := 10

def loneInit : LoneState := ⟨0, true, false⟩

/-- One tick of `detectLoneParticipantResilient`'s `check` callback paired with
whether the tick evaluated a read at all (i.e. called `getContributorsCount`). -/
def loneCheckTick (s : LoneState) (r : Reading) : LoneState × Bool :=
  if !s.active then (s, false)
  else
    match r with
    | .unknown =>
      let f := s.detectionFailures + 1
      if f ≥ maxDetectionFailures then ({ s with detectionFailures := f, active := false }, true)
      else ({ s with detectionFailures := f }, true)
    | .count n =>
      if n < 2 then ({ detectionFailures := 0, active := false, stopRequested := true }, true)
      else ({ s with detectionFailures := 0 }, true)
    | .errorThrown => ({ s with detectionFailures := s.detectionFailures + 1 }, true)

def loneStep (s : LoneState) (r : Reading) : LoneState :=
  (loneCheckTick s r).1

/-- The monitor run over a sequence of 5s-cadence reads. -/
def loneRun (s : LoneState) (rs : List Reading) : LoneState :=
  rs.foldl loneStep s

/-- Once inactive the monitor never changes again (each tick returns before
evaluating). -/
theorem loneRun_inactive_absorbs (rs : List Reading) :
    ∀ s : LoneState, s.active = false → loneRun s rs = s := by
  induction rs with
  | nil => intro s _; rfl
  | cons r rs ih =>
    intro s hs
    have hstep : loneStep s r = s := by
      simp [loneStep, loneCheckTick, hs]
    simpa [loneRun, List.foldl, hstep] using ih s hs

/-- C5: for every sequence of presence reads: a successful read below 2 requests
termination (and deactivates); a successful read of at least 2 resets the
consecutive-failure counter to 0 and polling continues; from a fresh active
state, 10 consecutive unknown reads leave the monitor permanently disabled with
no termination requested; and once disabled, no later read is evaluated and the
state never changes again. -/
theorem C5_presence_monitor (s : LoneState) (n : Nat) (r : Reading) (rs : List Reading) :
    (s.active = true → n < 2 →
      loneStep s (.count n) = ⟨0, false, true⟩) ∧
    (s.active = true → 2 ≤ n →
      loneStep s (.count n) = { s with detectionFailures := 0 } ∧
      (loneStep s (.count n)).active = true ∧
      (loneStep s (.count n)).stopRequested = s.stopRequested) ∧
    (loneRun loneInit (List.replicate 10 .unknown) = ⟨10, false, false⟩) ∧
    (s.active = false → loneCheckTick s r = (s, false) ∧ loneRun s rs = s) := by
  refine ⟨?_, ?_, by decide, ?_⟩
  · intro hs hn
    simp [loneStep, loneCheckTick, hs, hn]
  · intro hs hn
    have hn' : ¬ n < 2 := by omega
    refine ⟨?_, ?_, ?_⟩ <;> simp [loneStep, loneCheckTick, hs, hn']
  · intro hs
    exact ⟨by simp [loneCheckTick, hs], loneRun_inactive_absorbs rs s hs⟩

/-- Witness for C5 at concrete inputs: a read of 1 on a fresh monitor requests
termination; a read of 2 resets failures and keeps polling; a disabled monitor
ignores a subsequent successful read. -/
theorem C5_presence_monitor_witness :
    loneStep loneInit (.count 1) = ⟨0, false, true⟩ ∧
    loneStep ⟨7, true, false⟩ (.count 2) = ⟨0, true, false⟩ ∧
    loneCheckTick ⟨10, false, false⟩ (.count 5) = (⟨10, false, false⟩, false) := by
  have h1 := (C5_presence_monitor loneInit 1 .unknown []).1 rfl (by decide)
  have h2 := ((C5_presence_monitor ⟨7, true, false⟩ 2 .unknown []).2.1 rfl (by decide)).1
  have h3 := ((C5_presence_monitor ⟨10, false, false⟩ 5 (.count 5) []).2.2.2 rfl).1
  exact ⟨h1, h2, h3⟩

/-! ## Silence monitor (`detectIncrediblySilentMeeting`, lines 1816-1887)

Runs only if the captured stream has audio tracks.  Every 100ms it averages the
frequency-domain byte data; below the threshold (10) it adds 100 to
`silenceDuration` and, when that reaches `inactivityLimit`, stops monitoring and
calls `stopTheRecording`; at or above the threshold it resets `silenceDuration`
to 0.  Any error in the sampling callback sets `monitor = false` without
requesting termination, and an error while setting up the analyser prevents the
monitor from ever starting. -/

/-- One 100ms sample: the computed average of the analyser's byte frequency
data (a rational, as the mean of byte values), or a thrown analysis error. -/
inductive AudioSample
  | energy (audioActivity : ℚ)
  | analysisError
deriving DecidableEq, Repr

/-- The fixed `silenceThreshold` of the source. -/
def silenceThreshold : ℚ := 10

structure SilenceState where
  silenceDuration : Nat
  monitor : Bool
  /-- `stopTheRecording()` was invoked by this monitor. -/
  stopRequested : Bool
deriving DecidableEq, Repr

def silenceInit : SilenceState := ⟨0, true, false⟩

/-- One iteration of `monitorSilence` (lines 1849-1879); `inactivityLimit` is in
milliseconds.  When the monitor flag is off no further iteration runs, so the
step is the identity. -/
def monitorSilence (inactivityLimit : Nat) (s : SilenceState) (x : AudioSample) :
    SilenceState :=
  if !s.monitor then s
  else
    match x with
    | .analysisError => { s with monitor := false }
    | .energy a =>
      if a < silenceThreshold then
        let d := s.silenceDuration + 100
        if d ≥ inactivityLimit then ⟨d, false, true⟩
        else { s with silenceDuration := d }
      else { s with silenceDuration := 0 }

/-- The silence-monitor run over a 100ms-cadence sample sequence. -/
def monitorSilenceRun (inactivityLimit : Nat) (s : SilenceState)
    (xs : List AudioSample) : SilenceState :=
  xs.foldl (monitorSilence inactivityLimit) s

/-- `detectIncrediblySilentMeeting` (lines 1816-1887): `none` when the monitor
never starts (no audio tracks, or the analyser setup throws). -/
def detectIncrediblySilentMeeting (hasAudioTracks : Bool) (setupThrows : Bool)
    (inactivityLimit : Nat) (xs : List AudioSample) : Option SilenceState :=
  if !hasAudioTracks then none
  else if setupThrows then none
  else some (monitorSilenceRun inactivityLimit silenceInit xs)

theorem monitorSilenceRun_off_absorbs (limit : Nat) (xs : List AudioSample) :
    ∀ s : SilenceState, s.monitor = false → monitorSilenceRun limit s xs = s := by
  induction xs with
  | nil => intro s _; rfl
  | cons x xs ih =>
    intro s hs
    have hstep : monitorSilence limit s x = s := by
      simp [monitorSilence, hs]
    simpa [monitorSilenceRun, List.foldl, hstep] using ih s hs

/-- Generalized first-reach lemma: starting from duration `d` with the monitor
on and no stop yet, a run of `k` consecutive below-threshold samples has
requested termination exactly when some sample made the accumulated duration
reach the limit, i.e. when `k ≥ 1` and `limit ≤ d + 100 * k`. -/
theorem monitorSilenceRun_below_stop (limit : Nat) (a : ℚ) (ha : a < silenceThreshold) :
    ∀ (k d : Nat),
      ((monitorSilenceRun limit ⟨d, true, false⟩
          (List.replicate k (.energy a))).stopRequested = true ↔
        1 ≤ k ∧ limit ≤ d + 100 * k) := by
  intro k
  induction k with
  | zero =>
    intro d
    simp [monitorSilenceRun]
  | succ k ih =>
    intro d
    rw [List.replicate_succ]
    by_cases hreach : d + 100 ≥ limit
    · have hstep : monitorSilence limit ⟨d, true, false⟩ (.energy a) =
          ⟨d + 100, false, true⟩ := by
        simp [monitorSilence, ha, hreach]
      rw [monitorSilenceRun, List.foldl]
      rw [show List.foldl (monitorSilence limit) (monitorSilence limit ⟨d, true, false⟩ (.energy a)) (List.replicate k (.energy a)) = monitorSilenceRun limit (monitorSilence limit ⟨d, true, false⟩ (.energy a)) (List.replicate k (.energy a)) from rfl]
      rw [hstep, monitorSilenceRun_off_absorbs limit _ _ rfl]
      constructor
      · intro _; exact ⟨by omega, by omega⟩
      · intro _; rfl
    · have hstep : monitorSilence limit ⟨d, true, false⟩ (.energy a) =
          ⟨d + 100, true, false⟩ := by
        simp [monitorSilence, ha]
        omega
      rw [monitorSilenceRun, List.foldl]
      rw [show List.foldl (monitorSilence limit) (monitorSilence limit ⟨d, true, false⟩ (.energy a)) (List.replicate k (.energy a)) = monitorSilenceRun limit (monitorSilence limit ⟨d, true, false⟩ (.energy a)) (List.replicate k (.energy a)) from rfl]
      rw [hstep, ih (d + 100)]
      omega

/-- C6: while monitoring, each below-threshold sample adds 100ms to the
accumulated silence and each at-or-above-threshold sample resets it to 0 without
requesting termination; from a fresh monitor, a run of consecutive
below-threshold samples requests termination exactly at the first sample where
the accumulated silence reaches the inactivity limit (never one sample early);
the monitor never starts when the captured stream has no audio track; and an
analysis error stops the monitor without requesting termination. -/
theorem C6_silence_monitor (limit : Nat) (s : SilenceState) (a : ℚ) (k : Nat)
    (setupThrows : Bool) (xs : List AudioSample) :
    (s.monitor = true → a < silenceThreshold →
      (monitorSilence limit s (.energy a)).silenceDuration = s.silenceDuration + 100) ∧
    (s.monitor = true → silenceThreshold ≤ a →
      monitorSilence limit s (.energy a) = { s with silenceDuration := 0 }) ∧
    ((monitorSilenceRun limit silenceInit
        (List.replicate k (.energy 0))).stopRequested = true ↔
      1 ≤ k ∧ limit ≤ 100 * k) ∧
    detectIncrediblySilentMeeting false setupThrows limit xs = none ∧
    (s.monitor = true →
      monitorSilence limit s .analysisError = { s with monitor := false }) := by
    refine ⟨?_, ?_, ?_, by simp [detectIncrediblySilentMeeting], ?_⟩
    · intro hm ha
      by_cases hreach : s.silenceDuration + 100 ≥ limit <;>
        simp [monitorSilence, hm, ha, hreach]
    · intro hm ha
      have ha' : ¬ a < silenceThreshold := not_lt.mpr ha
      simp [monitorSilence, hm, ha']
    · simpa using monitorSilenceRun_below_stop limit 0 (by norm_num [silenceThreshold]) k 0
    · intro hm
      simp [monitorSilence, hm]

/-- Witness for C6 at concrete inputs: with a 3-sample (300ms) inactivity limit,
three consecutive silent samples request termination while two do not; a loud
sample resets the accumulated silence. -/
theorem C6_silence_monitor_witness :
    (monitorSilence 300 silenceInit (.energy 0)).silenceDuration = 100 ∧
    monitorSilence 300 ⟨200, true, false⟩ (.energy 42) = ⟨0, true, false⟩ ∧
    ((monitorSilenceRun 300 silenceInit
        (List.replicate 3 (.energy 0))).stopRequested = true) ∧
    ¬ ((monitorSilenceRun 300 silenceInit
        (List.replicate 2 (.energy 0))).stopRequested = true) := by
  have h1 := (C6_silence_monitor 300 silenceInit 0 3 false []).1 rfl
    (by norm_num [silenceThreshold])
  have h2 := (C6_silence_monitor 300 ⟨200, true, false⟩ 42 3 false []).2.1 rfl
    (by norm_num [silenceThreshold])
  have h3 := (C6_silence_monitor 300 silenceInit 0 3 false []).2.2.1.mpr
    (by constructor <;> omega)
  have h4 := (C6_silence_monitor 300 silenceInit 0 2 false []).2.2.1
  refine ⟨by simpa using h1, by simpa using h2, h3, ?_⟩
  intro hstop
  have := h4.mp hstop
  omega

/-! ## Admission wait loop (`waitAtLobbyPromise`, lines 341-473)

A 20s-cadence interval with a timer that resolves `false` when the overall
timeout elapses.  Each poll: look for the 'People' and 'Leave call' controls
(baseline in-call UI evidence).  If either is present: the host-waiting text
keeps polling but falls through to the denial-text check; the request-timed-out
text resolves `false` immediately; otherwise (lobby text not active, or its
detection threw) the poll checks the participant counter — detected resolves
`true`, otherwise the poll returns before ever reaching the denial-text check.
Only polls without baseline evidence, or with the host-waiting text, reach the
denial-text check, which resolves `false`. -/

/-- Result of `detectLobbyModeHostWaitingText`. -/
inductive LobbyTextStatus
  | waitingForHostToAdmitBot
  | waitingRequestTimeout
  | lobbyModeNotActive
  | unableToDetectLobbyMode
deriving DecidableEq, Repr

/-- What one 20-second poll of the lobby interval observes on the page. -/
structure PollObs where
  /-- `button[aria-label="People"]` resolved within its 5s wait. -/
  peopleElement : Bool
  /-- `button[aria-label="Leave call"]` resolved within its 5s wait. -/
  callButtonElement : Bool
  lobbyText : LobbyTextStatus
  /-- the in-page participant-counter evaluation returned `true`. -/
  participantCountDetected : Bool
  /-- the in-page participant-counter evaluation threw. -/
  participantEvalThrows : Bool
  /-- the `GOOGLE_REQUEST_DENIED` text is present and visible. -/
  deniedTextVisible : Bool
  /-- looking up the denial text threw. -/
  deniedCheckThrows : Bool
deriving DecidableEq, Repr

/-- How a single poll of the interval callback ends. -/
inductive PollStep
  | continueWaiting
  /-- `resolveWaiting(true)` from the participant-counter confirmation. -/
  | admitted
  /-- `resolveWaiting(false)` from the visible denial text. -/
  | deniedResolved
  /-- `resolveWaiting(false)` from the request-timed-out text. -/
  | requestTimedOut
deriving DecidableEq, Repr

/-- One execution of the interval callback (lines 347-472). -/
def pollOnce (o : PollObs) : PollStep :=
  if o.peopleElement || o.callButtonElement then
    match o.lobbyText with
    | .waitingForHostToAdmitBot =>
      if !o.deniedCheckThrows && o.deniedTextVisible then .deniedResolved
      else .continueWaiting
    | .waitingRequestTimeout => .requestTimedOut
    | _ =>
      if o.participantEvalThrows then .continueWaiting
      else if o.participantCountDetected then .admitted
      else .continueWaiting
  else
    if !o.deniedCheckThrows && o.deniedTextVisible then .deniedResolved
    else .continueWaiting

/-- Overall outcome of `waitAtLobbyPromise`; `timedOutByTimer` is the
`wanderingTime` timeout resolving `false`. -/
inductive LobbyResult
  | admitted
  | deniedResolved
  | requestTimedOut
  | timedOutByTimer
deriving DecidableEq, Repr

/-- The wait loop over the finite sequence of polls that fit inside the overall
timeout; exhausting the list is the timer firing. -/
def waitAtLobby : List PollObs → LobbyResult
  | [] => .timedOutByTimer
  | o :: rest =>
    match pollOnce o with
    | .continueWaiting => waitAtLobby rest
    | .admitted => .admitted
    | .deniedResolved => .deniedResolved
    | .requestTimedOut => .requestTimedOut

/-- The boolean `waitingAtLobbySuccess` the caller sees. -/
def lobbyResolvedValue : LobbyResult → Bool
  | .admitted => true
  | _ => false

/-- A poll where the baseline in-call UI evidence is present, the lobby is not
in host-waiting mode, no participant counter is visible, and the denial text is
shown. -/
def deniedWhileBaselinePoll : PollObs :=
  { peopleElement := true
    callButtonElement := false
    lobbyText := .lobbyModeNotActive
    participantCountDetected := false
    participantEvalThrows := false
    deniedTextVisible := true
    deniedCheckThrows := false }

/-- C3 counterexample: on a poll with baseline in-call UI evidence present and a
denial cue shown, the loop does not return Denied — the poll returns from the
participant-counter branch before the denial check, so a session showing this
state on every poll ends in the timer timeout, not Denied, contradicting both
the claimed immediate denial and the claimed iff. -/
theorem C3_denial_skipped_counterexample :
    pollOnce deniedWhileBaselinePoll = .continueWaiting ∧
    waitAtLobby [deniedWhileBaselinePoll] = .timedOutByTimer ∧
    waitAtLobby (List.replicate 5 deniedWhileBaselinePoll) = .timedOutByTimer := by
  exact ⟨by decide, by decide, by decide⟩

/-- Maps a resolving poll step to the loop outcome it produces. -/
def pollStepResult : PollStep → LobbyResult
  | .continueWaiting => .timedOutByTimer
  | .admitted => .admitted
  | .deniedResolved => .deniedResolved
  | .requestTimedOut => .requestTimedOut

/-- The loop resolves with the first poll that does not continue waiting. -/
theorem waitAtLobby_first_resolution (obs : List PollObs) :
    waitAtLobby obs =
      (match obs.find? (fun o => pollOnce o != .continueWaiting) with
        | none => .timedOutByTimer
        | some o => pollStepResult (pollOnce o)) := by
  induction obs with
  | nil => rfl
  | cons o rest ih =>
    by_cases h : pollOnce o = .continueWaiting
    · simp [waitAtLobby, List.find?, h, ih, pollStepResult]
    · have hb : (pollOnce o != .continueWaiting) = true := by
        simpa using h
      rw [List.find?]
      rw [hb]
      cases hp : pollOnce o
      · exact absurd hp h
      · simp [waitAtLobby, hp, pollStepResult]
      · simp [waitAtLobby, hp, pollStepResult]
      · simp [waitAtLobby, hp, pollStepResult]

/-- C3 amended: a poll resolves Denied iff the denial text is visible (and its
lookup does not throw) on a poll where the baseline in-call UI evidence is
absent or the host-waiting text is shown — with baseline evidence present and
the lobby text not in host-waiting mode the denial cue is never consulted; a
poll resolves Admitted iff baseline evidence is present, the lobby text is
neither host-waiting nor request-timed-out, and the participant-counter
evaluation succeeds with a count confirmed (baseline evidence alone never
admits); a poll resolves TimedOut-by-cue iff baseline evidence is present with
the request-timed-out text; and the loop returns the outcome of the first
resolving poll, timing out by the timer iff every poll within the window
continues waiting. -/
theorem C3_lobby_semantics (o : PollObs) (obs : List PollObs) :
    (pollOnce o = .deniedResolved ↔
      (o.deniedCheckThrows = false ∧ o.deniedTextVisible = true ∧
        ((o.peopleElement || o.callButtonElement) = false ∨
          o.lobbyText = .waitingForHostToAdmitBot))) ∧
    (pollOnce o = .admitted ↔
      ((o.peopleElement || o.callButtonElement) = true ∧
        (o.lobbyText = .lobbyModeNotActive ∨ o.lobbyText = .unableToDetectLobbyMode) ∧
        o.participantEvalThrows = false ∧ o.participantCountDetected = true)) ∧
    (pollOnce o = .requestTimedOut ↔
      ((o.peopleElement || o.callButtonElement) = true ∧
        o.lobbyText = .waitingRequestTimeout)) ∧
    (waitAtLobby obs =
      (match obs.find? (fun p => pollOnce p != .continueWaiting) with
        | none => .timedOutByTimer
        | some p => pollStepResult (pollOnce p))) := by
  refine ⟨?_, ?_, ?_, waitAtLobby_first_resolution obs⟩ <;>
    (obtain ⟨p, c, lt, pc, pe, dv, dc⟩ := o
     cases p <;> cases c <;> cases lt <;> cases pc <;> cases pe <;> cases dv <;>
       cases dc <;> decide)

/-- Witness for C3's amended theorem at concrete polls: a denial cue with no
baseline evidence resolves Denied, and a participant-count confirmation
resolves Admitted. -/
theorem C3_lobby_semantics_witness :
    pollOnce ⟨false, false, .lobbyModeNotActive, false, false, true, false⟩ =
      .deniedResolved ∧
    pollOnce ⟨true, true, .lobbyModeNotActive, true, false, false, false⟩ =
      .admitted := by
  have h1 := (C3_lobby_semantics
    ⟨false, false, .lobbyModeNotActive, false, false, true, false⟩ []).1.mpr
    ⟨rfl, rfl, Or.inl rfl⟩
  have h2 := (C3_lobby_semantics
    ⟨true, true, .lobbyModeNotActive, true, false, false, false⟩ []).2.1.mpr
    ⟨rfl, Or.inl rfl, rfl, rfl⟩
  exact ⟨h1, h2⟩

/-! ## Capture-path submission check (`transcriptionInterval`, lines 1361-1461,
with `scriptProcessor.onaudioprocess`, lines 1271-1297)

The `ScriptProcessorNode` (buffer size 4096 at 16kHz, i.e. one callback per
256ms) always pushes the frame into `pcmAudioBuffers` and updates
`lastAudioActivityTime` when `average > 0.001 || max > 0.01`.  The 2s interval:
skips while the bot is speaking; skips on an empty buffer list; skips when the
total samples are below 32000 or less than 5000ms passed since
`lastTranscriptionTime`; discards the buffers when more than 5000ms passed since
the last activity; otherwise sets `lastTranscriptionTime`, submits the combined
batch for transcription, and clears the buffers. -/

/-- One `onaudioprocess` frame: its sample count and the computed mean and peak
of the absolute sample values, both in millionths (so the source thresholds
0.001 and 0.01 become 1000 and 10000; the fixed positive scaling preserves
every comparison). -/
structure AudioFrame where
  samples : Nat
  avgAbsMicro : Int
  maxAbsMicro : Int
deriving DecidableEq, Repr

structure CaptureState where
  /-- the sizes of the buffers currently in `pcmAudioBuffers`. -/
  pcmAudioBuffers : List Nat
  /-- `lastTranscriptionTime`, initialized to 0. -/
  lastTranscriptionTime : Int
  /-- `lastAudioActivityTime`, initialized to `Date.now()` at setup. -/
  lastAudioActivityTime : Int
  /-- the `isSpeaking` mutual-exclusion flag. -/
  isSpeaking : Bool
  /-- timestamps at which a batch was submitted for transcription. -/
  submissions : List Int
deriving DecidableEq, Repr

/-- `scriptProcessor.onaudioprocess` (lines 1271-1297): always collect the
frame; record activity when the mean or peak magnitude is above threshold. -/
def onaudioprocess (now : Int) (f : AudioFrame) (s : CaptureState) : CaptureState :=
  let s' := { s with pcmAudioBuffers := s.pcmAudioBuffers ++ [f.samples] }
  if f.avgAbsMicro > 1000 ∨ f.maxAbsMicro > 10000 then
    { s' with lastAudioActivityTime := now }
  else s'

/-- How one execution of the 2s submission check ends. -/
inductive CheckOutcome
  | speakingSkip
  | emptySkip
  | tooSmallOrTooSoonSkip
  | inactivityDiscard
  | submitted
deriving DecidableEq, Repr

/-- `minSamples` (line 1377): 2 seconds at 16kHz. -/
def minSamples : Nat := 32000

/-- One execution of the `transcriptionInterval` callback (lines 1361-1461),
up to and including the decision to submit the batch for transcription. -/
def transcriptionCheck (now : Int) (s : CaptureState) : CaptureState × CheckOutcome :=
  if s.isSpeaking then (s, .speakingSkip)
  else if s.pcmAudioBuffers.length = 0 then (s, .emptySkip)
  else
    let totalSamples := s.pcmAudioBuffers.sum
    if totalSamples < minSamples ∨ now - s.lastTranscriptionTime < 5000 then
      (s, .tooSmallOrTooSoonSkip)
    else if now - s.lastAudioActivityTime > 5000 then
      ({ s with pcmAudioBuffers := [] }, .inactivityDiscard)
    else
      ({ s with
          lastTranscriptionTime := now
          pcmAudioBuffers := []
          submissions := s.submissions ++ [now] }, .submitted)

/-- An event on the capture path's single-threaded timeline. -/
inductive CaptureEvent
  | frame (now : Int) (f : AudioFrame)
  | check (now : Int)
deriving DecidableEq, Repr

def captureRun (s : CaptureState) : List CaptureEvent → CaptureState
  | [] => s
  | .frame t f :: rest => captureRun (onaudioprocess t f s) rest
  | .check t :: rest => captureRun (transcriptionCheck t s).1 rest

/-- A speech frame of the scenario: 4096 samples of clearly audible audio
(mean magnitude 0.1, peak 0.5, in millionths). -/
def speechFrame : AudioFrame := ⟨4096, 100000, 500000⟩

/-- A silent frame of the scenario: 4096 samples of silence. -/
def silentFrame : AudioFrame := ⟨4096, 0, 0⟩

/-- A session start epoch for the scenario (milliseconds, as `Date.now()`). -/
def scenarioStart : Int := 1700000000000

/-- Capture state at setup time: empty buffers, `lastTranscriptionTime = 0`,
`lastAudioActivityTime = Date.now()`, bot not speaking. -/
def scenarioInit : CaptureState := ⟨[], 0, scenarioStart, false, []⟩

/-- The claimed scenario on the code's real cadences: 1.5 seconds of
above-threshold audio (frames every 256ms, frames 1-6), then silence
(frames 7-15), with the 2s submission checks at 2000ms and 4000ms. -/
def scenarioEvents : List CaptureEvent :=
  ((List.range 7).map (fun k =>
    CaptureEvent.frame (scenarioStart + 256 * (k + 1))
      (if k + 1 ≤ 6 then speechFrame else silentFrame))) ++
  [CaptureEvent.check (scenarioStart + 2000)] ++
  ((List.range 8).map (fun k =>
    CaptureEvent.frame (scenarioStart + 256 * (k + 8)) silentFrame)) ++
  [CaptureEvent.check (scenarioStart + 4000)]

/-- C7 counterexample: in the claimed 1.5s-speech-then-3s-silence scenario the
batch IS submitted.  Silence frames also accumulate into `pcmAudioBuffers`, so
at the 4000ms check the batch holds 61440 samples (≥ 32000) while the last
activity was only 2464ms ago (≤ 5000), and the batch is submitted — it is never
discarded for inactivity.  (At the 2000ms check it is indeed below the minimum:
28672 samples.)  This contradicts the claim that such a batch is never
submitted. -/
theorem C7_scenario_submits_counterexample :
    (captureRun scenarioInit scenarioEvents).submissions = [scenarioStart + 4000] ∧
    (transcriptionCheck (scenarioStart + 2000)
      (captureRun scenarioInit (scenarioEvents.take 7))).2 = .tooSmallOrTooSoonSkip := by
  exact ⟨by decide, by decide⟩

/-- C7 amended: at each 2s check the batch is submitted iff the bot is not
speaking, the buffer list is nonempty, the accumulated samples reach the 2s
minimum (32000 at 16kHz), at least 5000ms elapsed since the previous submission,
and activity was observed at most 5000ms ago; the batch is discarded without
submission iff the first four conditions hold but the last activity is more than
5000ms old (a stale batch below the minimum is retained, not discarded); buffers
are cleared exactly on submission and on discard; and because silence frames
keep accumulating, the 1.5s-speech + 3s-silence scenario reaches the minimum
while activity is still recent and is submitted at the 4000ms check. -/
theorem C7_submission_conditions (now : Int) (s : CaptureState) :
    ((transcriptionCheck now s).2 = .submitted ↔
      (s.isSpeaking = false ∧ s.pcmAudioBuffers ≠ [] ∧
        minSamples ≤ s.pcmAudioBuffers.sum ∧
        5000 ≤ now - s.lastTranscriptionTime ∧
        now - s.lastAudioActivityTime ≤ 5000)) ∧
    ((transcriptionCheck now s).2 = .inactivityDiscard ↔
      (s.isSpeaking = false ∧ s.pcmAudioBuffers ≠ [] ∧
        minSamples ≤ s.pcmAudioBuffers.sum ∧
        5000 ≤ now - s.lastTranscriptionTime ∧
        5000 < now - s.lastAudioActivityTime)) ∧
    ((transcriptionCheck now s).1.pcmAudioBuffers =
      if (transcriptionCheck now s).2 = .submitted ∨
          (transcriptionCheck now s).2 = .inactivityDiscard then []
      else s.pcmAudioBuffers) ∧
    ((transcriptionCheck now s).1.submissions =
      if (transcriptionCheck now s).2 = .submitted then s.submissions ++ [now]
      else s.submissions) := by
  by_cases hsp : s.isSpeaking
  · refine ⟨?_, ?_, ?_, ?_⟩ <;> simp [transcriptionCheck, hsp]
  · by_cases hemp : s.pcmAudioBuffers.length = 0
    · have h0 : s.pcmAudioBuffers = [] := List.length_eq_zero.mp hemp
      refine ⟨?_, ?_, ?_, ?_⟩ <;> simp [transcriptionCheck, hsp, hemp, h0]
    · have hne : s.pcmAudioBuffers ≠ [] := by
        intro h; exact hemp (by simp [h])
      by_cases hsmall : s.pcmAudioBuffers.sum < minSamples ∨ now - s.lastTranscriptionTime < 5000
      · have : ¬ (minSamples ≤ s.pcmAudioBuffers.sum ∧
            5000 ≤ now - s.lastTranscriptionTime) := by omega
        refine ⟨?_, ?_, ?_, ?_⟩ <;> simp [transcriptionCheck, hsp, hemp, hsmall]
        all_goals omega
      · by_cases hstale : now - s.lastAudioActivityTime > 5000
        · refine ⟨?_, ?_, ?_, ?_⟩ <;>
            simp [transcriptionCheck, hsp, hemp, hsmall, hstale, hne]
          all_goals omega
        · refine ⟨?_, ?_, ?_, ?_⟩ <;>
            simp [transcriptionCheck, hsp, hemp, hsmall, hstale, hne]
          all_goals omega

/-! ## Response gating on the three transcript paths (lines 1021-1045,
1431-1449, 1490-1519)

The batch capture path and the microphone-recognition fallback share the
in-page `isSpeaking` flag: they refuse transcripts while it is set, set it
before invoking `__triggerBotResponse`, and schedule `isSpeaking = false` 10000
milliseconds after the response resolves.  The Deepgram streaming callback runs
on the Node side: it invokes `__triggerBotResponse` for every final transcript
with trimmed length above 2, without reading or setting the flag. -/

/-- JS `String.prototype.trim` on the character list: strip leading and
trailing whitespace. -/
def trimChars (l : List Char) : List Char :=
  ((l.dropWhile Char.isWhitespace).reverse.dropWhile Char.isWhitespace).reverse

/-- JS `transcript.trim()`. -/
def jsTrim (s : String) : String := String.mk (trimChars s.data)

/-- The Deepgram live-transcript callback (lines 1022-1043): invokes the
response pipeline iff the transcript is final and its trimmed length exceeds 2.
The `isSpeaking` argument is the current value of the in-page flag; the callback
never consults it (nor sets it), which the argument makes explicit. -/
def liveTranscriptCallback (_isSpeaking : Bool) (transcript : String)
    (isFinal : Bool) : Bool :=
  isFinal && decide ((jsTrim transcript).length > 2)

/-- The batch path's decision after a transcription result arrives (interval
guard at line 1362 plus the acceptance test at line 1431): the whole 2s check is
skipped while `isSpeaking` is set; otherwise the response pipeline is invoked
iff the transcription succeeded with a truthy (nonempty) transcript whose
trimmed length exceeds 2. -/
def transcriptionIntervalResponse (isSpeaking : Bool) (success : Bool)
    (transcript : String) : Bool :=
  !isSpeaking && success && !(transcript == "") &&
    decide ((jsTrim transcript).length > 2)

/-- The microphone-recognition fallback's `onresult` handler (lines 1490-1519):
ignores results while `isSpeaking` is set, returns when the trimmed transcript
has length below 2, and otherwise invokes the response pipeline — so a trimmed
transcript of length exactly 2 is accepted. -/
def micRecognitionOnResult (isSpeaking : Bool) (transcript : String) : Bool :=
  !isSpeaking && !(decide ((jsTrim transcript).length < 2))

/-- Observable steps of an accepted response, in program order. -/
inductive RespondEvent
  | setRespondingFlag
  | requestResponse
  | clearRespondingFlagAfterMs (ms : Nat)
deriving DecidableEq, Repr

/-- The mic fallback path on acceptance: `isSpeaking = true`, then
`await __triggerBotResponse(...)`, then `setTimeout(() => isSpeaking = false,
10000)` (lines 1505-1514). -/
def micAcceptanceEvents (isSpeaking : Bool) (transcript : String) : List RespondEvent :=
  if micRecognitionOnResult isSpeaking transcript then
    [.setRespondingFlag, .requestResponse, .clearRespondingFlagAfterMs 10000]
  else []

/-- The batch path on acceptance: identical flag lifecycle (lines 1436-1445). -/
def batchAcceptanceEvents (isSpeaking : Bool) (success : Bool)
    (transcript : String) : List RespondEvent :=
  if transcriptionIntervalResponse isSpeaking success transcript then
    [.setRespondingFlag, .requestResponse, .clearRespondingFlagAfterMs 10000]
  else []

/-- C8 counterexample: the mic fallback accepts a trimmed transcript of length
exactly 2 (its guard is `length < 2`, not `≤ 2`), and the streaming callback
invokes the response pipeline even while the responding flag is set —
contradicting both the length->2 gate and the mutual-exclusion part of the
claim. -/
theorem C8_response_gating_counterexample :
    micRecognitionOnResult false "hi" = true ∧
    (jsTrim "hi").length = 2 ∧
    liveTranscriptCallback true "hello there" true = true := by
  exact ⟨by decide, by decide, by decide⟩

/-- C8 amended: the batch path invokes the response pipeline iff the flag is
clear, transcription succeeded, and the trimmed transcript has length above 2;
the mic fallback requires the flag clear but accepts trimmed length ≥ 2; the
streaming callback requires a final transcript of trimmed length above 2 and is
fully independent of the responding flag, neither checking nor setting it; on
batch/mic acceptance the flag is set before the response is requested and its
clearing is scheduled 10 seconds after the response resolves. -/
theorem C8_response_gating (isSpeaking success isFinal : Bool) (t : String) :
    (micRecognitionOnResult isSpeaking t = true ↔
      isSpeaking = false ∧ 2 ≤ (jsTrim t).length) ∧
    (liveTranscriptCallback isSpeaking t isFinal =
      liveTranscriptCallback (!isSpeaking) t isFinal) ∧
    (liveTranscriptCallback isSpeaking t isFinal = true ↔
      isFinal = true ∧ 2 < (jsTrim t).length) ∧
    (transcriptionIntervalResponse isSpeaking success t = true ↔
      isSpeaking = false ∧ success = true ∧ t ≠ "" ∧ 2 < (jsTrim t).length) ∧
    (micRecognitionOnResult isSpeaking t = true →
      micAcceptanceEvents isSpeaking t =
        [.setRespondingFlag, .requestResponse, .clearRespondingFlagAfterMs 10000]) ∧
    (transcriptionIntervalResponse isSpeaking success t = true →
      batchAcceptanceEvents isSpeaking success t =
        [.setRespondingFlag, .requestResponse, .clearRespondingFlagAfterMs 10000]) := by
  refine ⟨?_, ?_, ?_, ?_, ?_, ?_⟩
  · cases isSpeaking <;> simp [micRecognitionOnResult, Nat.not_lt]
  · rfl
  · cases isFinal <;> simp [liveTranscriptCallback]
  · cases isSpeaking <;> cases success <;>
      simp [transcriptionIntervalResponse, String.ext_iff]
  · intro h; simp [micAcceptanceEvents, h]
  · intro h; simp [batchAcceptanceEvents, h]

/-- Witness for C8's amended theorem at concrete transcripts: a 5-character
final transcript is accepted by the streaming callback, and the mic fallback's
acceptance emits set-flag before request-response with the 10s cool-down last. -/
theorem C8_response_gating_witness :
    liveTranscriptCallback false "hello" true = true ∧
    micAcceptanceEvents false "hi" =
      [.setRespondingFlag, .requestResponse, .clearRespondingFlagAfterMs 10000] := by
  have h1 := (C8_response_gating false true true "hello").2.2.1.mpr ⟨rfl, by decide⟩
  have h2 := (C8_response_gating false true true "hi").2.2.2.2.1 (by decide)
  exact ⟨h1, h2⟩

/-! ## Synthesis path (`speakInMeeting`, lines 566-939)

The entire body is one `try` block; the `catch` logs the error and returns,
never rethrowing.  Inside the try: a missing Deepgram API key returns early as a
no-op; TTS generation, the in-page stream-creation evaluate, page interactions
while enabling/toggling the microphone, the playback evaluate and the
voice-listening query can each throw; a stream-creation result with
`success: false` returns early. -/

/-- The caller-observable way a `speakInMeeting` call finishes. -/
inductive SpeakOutcome
  | skippedNoApiKey
  | abortedStreamCreation
  | completed (playbackOk : Bool) (audioReplaced : Bool) (micEnabled : Bool)
      (voiceListeningActive : Bool)
  | errorCaught (msg : String)
deriving DecidableEq, Repr

/-- The external effects `speakInMeeting` depends on, each able to throw. -/
structure SpeakEnv where
  /-- `config.deepgramApiKey` is truthy. -/
  deepgramApiKeyConfigured : Bool
  /-- registering the console hook (`page.on`). -/
  consoleHookInstall : Except String Unit
  /-- `new TtsService(...)` (throws when `DEEPGRAM_API_KEY` is absent from the
  environment). -/
  ttsServiceCtor : Except String Unit
  /-- `ttsService.textToSpeech(text)`: the synthesized audio bytes. -/
  textToSpeech : Except String (List Nat)
  /-- the stream-creation `page.evaluate`: the reported `success` flag. -/
  ttsStreamCreation : Except String Bool
  /-- page interactions enabling/toggling the microphone (the click helpers
  swallow their own errors and report a boolean; the surrounding waits can
  throw). -/
  micEnableInteraction : Except String Bool
  /-- the playback `page.evaluate`: `(success, audioReplaced)`. -/
  playbackEvaluate : Except String (Bool × Bool)
  /-- the `__voiceListeningActive` query evaluate. -/
  voiceListeningActiveQuery : Except String Bool
deriving Repr

/-- The `try` block of `speakInMeeting` (lines 567-934): sequential effects with
two early returns; any thrown error propagates out of the block. -/
def speakInMeetingBody (env : SpeakEnv) : Except String SpeakOutcome := do
  if !env.deepgramApiKeyConfigured then return .skippedNoApiKey
  _ ← env.consoleHookInstall
  _ ← env.ttsServiceCtor
  _ ← env.textToSpeech
  let created ← env.ttsStreamCreation
  if !created then return .abortedStreamCreation
  let micEnabled ← env.micEnableInteraction
  let pr ← env.playbackEvaluate
  let voiceActive ← env.voiceListeningActiveQuery
  return .completed pr.1 pr.2 micEnabled voiceActive

/-- `speakInMeeting` (lines 566-939): the catch block logs and completes
normally, so the caller always receives a normal completion. -/
def speakInMeeting (env : SpeakEnv) : Except String SpeakOutcome :=
  match speakInMeetingBody env with
  | .ok o => .ok o
  | .error msg => .ok (.errorCaught msg)

/-- C9: for every environment — every combination of synthesis, stream
creation, microphone toggling, playback and query failures — `speakInMeeting`
returns normally: it never propagates an error to its caller, and any error
thrown inside the body surfaces only as a logged, caught completion. -/
theorem C9_speak_never_throws (env : SpeakEnv) :
    (∃ o, speakInMeeting env = .ok o) ∧
    (∀ msg, speakInMeetingBody env = .error msg →
      speakInMeeting env = .ok (.errorCaught msg)) ∧
    (∀ e, speakInMeeting env ≠ .error e) := by
  refine ⟨?_, ?_, ?_⟩
  · cases h : speakInMeetingBody env with
    | ok o => exact ⟨o, by simp [speakInMeeting, h]⟩
    | error msg => exact ⟨.errorCaught msg, by simp [speakInMeeting, h]⟩
  · intro msg h
    simp [speakInMeeting, h]
  · intro e he
    cases h : speakInMeetingBody env <;> simp [speakInMeeting, h] at he

/-- An environment where text-to-speech synthesis itself fails. -/
def speakEnvTtsFails : SpeakEnv :=
  { deepgramApiKeyConfigured := true
    consoleHookInstall := .ok ()
    ttsServiceCtor := .ok ()
    textToSpeech := .error "Deepgram TTS returned no response"
    ttsStreamCreation := .ok true
    micEnableInteraction := .ok true
    playbackEvaluate := .ok (true, true)
    voiceListeningActiveQuery := .ok false }

/-- Witness for C9 at a concrete failing environment: a synthesis failure is
caught and the call completes normally. -/
theorem C9_speak_never_throws_witness :
    speakInMeeting speakEnvTtsFails =
      .ok (.errorCaught "Deepgram TTS returned no response") :=
  (C9_speak_never_throws speakEnvTtsFails).2.1
    "Deepgram TTS returned no response" rfl

/-! ## Secret-id guard on the page-exposed callbacks (`recordMeetingPage`,
lines 1579-1594)

`screenAppSendData` and `screenAppMeetEnd` are exposed to the page; both first
compare their first argument against the session's private `slightlySecretId`
and return without any effect on a mismatch. -/

/-- Node-side state the two exposed callbacks can affect: the chunks saved
through the uploader, and whether the recording wait was resolved early. -/
structure RecordSessionState where
  savedData : List String
  meetEndSignaled : Bool
deriving DecidableEq, Repr

/-- `screenAppSendData` (lines 1579-1584): guard, then decode and
`uploader.saveDataToTempFile`. -/
def screenAppSendData (secretId : String) (st : RecordSessionState)
    (slightlySecretId : String) (data : String) : RecordSessionState :=
  if slightlySecretId ≠ secretId then st
  else { st with savedData := st.savedData ++ [data] }

/-- `screenAppMeetEnd` (lines 1586-1594): guard, then resolve the recording
wait early. -/
def screenAppMeetEnd (secretId : String) (st : RecordSessionState)
    (slightlySecretId : String) : RecordSessionState :=
  if slightlySecretId ≠ secretId then st
  else { st with meetEndSignaled := true }

/-- C10: a call to either page-exposed callback with a first argument different
from the session's private id leaves the session state completely unchanged (no
data saved, no early end), and calls carrying the matching id perform exactly
their effect. -/
theorem C10_secret_id_guard (secretId other data : String) (st : RecordSessionState) :
    (other ≠ secretId → screenAppSendData secretId st other data = st) ∧
    (other ≠ secretId → screenAppMeetEnd secretId st other = st) ∧
    screenAppSendData secretId st secretId data =
      { st with savedData := st.savedData ++ [data] } ∧
    screenAppMeetEnd secretId st secretId =
      { st with meetEndSignaled := true } := by
  refine ⟨?_, ?_, ?_, ?_⟩
  · intro h; simp [screenAppSendData, h]
  · intro h; simp [screenAppMeetEnd, h]
  · simp [screenAppSendData]
  · simp [screenAppMeetEnd]

/-- Witness for C10 at concrete ids: a mismatched id saves nothing and does not
end the recording wait; the matching id saves the chunk. -/
theorem C10_secret_id_guard_witness :
    screenAppSendData "a1b2-c3d4" ⟨[], false⟩ "intruder" "AAAA" = ⟨[], false⟩ ∧
    screenAppMeetEnd "a1b2-c3d4" ⟨[], false⟩ "intruder" = ⟨[], false⟩ ∧
    screenAppSendData "a1b2-c3d4" ⟨[], false⟩ "a1b2-c3d4" "AAAA" =
      ⟨["AAAA"], false⟩ := by
  have h := C10_secret_id_guard "a1b2-c3d4" "intruder" "AAAA" ⟨[], false⟩
  have h' := C10_secret_id_guard "a1b2-c3d4" "a1b2-c3d4" "AAAA" ⟨[], false⟩
  exact ⟨h.1 (by decide), h.2.1 (by decide), h'.2.2.1⟩

end MeetingBot
